import Mathlib

/-!
Verification of the Gantt layout engine of `generate_gantt_chart.py`
(operating-room Gantt chart generator).

The Python source is shallowly embedded: pure helpers become Lean
functions, Python machine integers become `Int`/`Nat` (no overflow is
possible at these magnitudes), Python floats carrying exact multiples of
0.5 become `ℚ`, and code that can raise an exception (caught by the
per-record `try/except` blocks of the source) returns `Option`.
-/

namespace Gantt

/-! ## Configuration constants (`generate_gantt_chart.py`, lines 33-65) -/

/-- Room display order (`ROOM_ORDER`, line 34). -/
def ROOM_ORDER : List String :=
  ["01A", "01B", "02", "03", "05", "06", "07", "08", "09", "10", "ｱﾝｷﾞｵ"]

/-- Start of the horizontal time axis (`TIME_START_HOUR = 8`, line 37). -/
def TIME_START_HOUR : Int := 8

/-- End of the horizontal time axis (`TIME_END_HOUR = 22`, line 38). -/
def TIME_END_HOUR : Int := 22

/-- Columns per hour (`COLS_PER_HOUR = 6`, line 39). -/
def COLS_PER_HOUR : Int := 6

/-- Last grid column (`TPL_COL_END = 93`, column CO, line 46). -/
def TPL_COL_END : Int := 93

/-- Department short-code mapping (`DEPT_SHORT`, lines 49-65). -/
def DEPT_SHORT : List (String × String) :=
  [("総合外科", "総"),
   ("乳腺外科", "乳"),
   ("心臓血管外科", "心"),
   ("整形外科・スポーツ診療科", "整"),
   ("形成外科", "形"),
   ("産科・婦人科", "産"),
   ("腎・高血圧内科", "腎"),
   ("小児外科", "小"),
   ("眼科", "眼"),
   ("循環器内科", "循"),
   ("呼吸器外科", "呼"),
   ("泌尿器科", "泌"),
   ("耳鼻咽喉・頭頚科", "耳"),
   ("脳神経外科", "脳"),
   ("麻酔科・ペインクリニック", "麻")]

/-- Default fill color for scheduled activities (`COLOR_SCHEDULED`, line 68). -/
def COLOR_SCHEDULED : String := "A0C8E4"

/-- Default fill color for urgent activities (`COLOR_URGENT`, line 69). -/
def COLOR_URGENT : String := "6DABD5"

/-- Default fill color for emergency activities (`COLOR_EMERGENCY`, line 70). -/
def COLOR_EMERGENCY : String := "FF8CCC"

/-! ## Time values

A time cell of the input sheet reaches the engine as one of: a clock
string `"HH:MM"`, a `timedelta` (duration since midnight; modelled by its
integral number of seconds, which is what `int(t.total_seconds())`
yields on the integral durations Excel produces), a `datetime.time`, or
any other object carrying `hour`/`minute` attributes (the final `else`
branch of the source).  `bad` models a value with none of these shapes,
on which the Python attribute access raises. -/

inductive TimeVal where
  | str (s : String)
  | td (seconds : Int)
  | time (h m : Nat)
  | other (h m : Nat)
  | bad
deriving DecidableEq, Repr

/-- Parsing of a clock string by `t.split(":")` followed by `int(...)` on
the first two parts (`generate_gantt_chart.py`, lines 151-153 and
211-213).  `none` models the `IndexError`/`ValueError` the Python code
raises on a malformed string; `String.toInt?` stands in for Python
`int()`. -/
def parseClock (s : String) : Option (Int × Int) :=
  match s.splitOn ":" with
  | p0 :: p1 :: _ =>
      match p0.toInt?, p1.toInt? with
      | some h, some m => some (h, m)
      | _, _ => none
  | _ => none

/-- Normalization of a time value to (hours, minutes), as performed by
the `isinstance` chain of `time_to_col` (lines 151-163).  In the
`timedelta` branch the source computes `hours = total_seconds // 3600`
and `minutes = (total_seconds % 3600) // 60`; Python `//` is floor
division (`Int.fdiv`) and `%` with a positive modulus is `Int.emod`. -/
def normalizeHM : TimeVal → Option (Int × Int)
  | .str s => parseClock s
  | .td seconds => some (Int.fdiv seconds 3600, Int.fdiv (Int.emod seconds 3600) 60)
  | .time h m => some ((h : Int), (m : Int))
  | .other h m => some ((h : Int), (m : Int))
  | .bad => none

/-- Core column computation of `time_to_col` (lines 165-167):
`total_minutes = (hours - TIME_START_HOUR) * 60 + minutes` and
`col = col_offset + int(total_minutes / 10)`.  Python `int(x / 10)`
truncates the true quotient toward zero, which on these integers is
exactly `Int.tdiv`. -/
def time_to_col_hm (hours minutes col_offset : Int) : Int :=
  col_offset + Int.tdiv ((hours - TIME_START_HOUR) * 60 + minutes) 10

/-- Full `time_to_col` (lines 148-167): normalize the incoming value to
(hours, minutes), then apply the column formula.  `none` models an
exception escaping the function (callers wrap calls in `try/except`). -/
def time_to_col (t : TimeVal) (col_offset : Int) : Option Int :=
  (normalizeHM t).map (fun p => time_to_col_hm p.1 p.2 col_offset)

/-! ## Activity records

One row of the day's data as consumed by the layout engine, with the
columns it reads: 手術実施日 (execution date), 実施手術室名 (room),
入室時刻 (entry time), 麻酔終了時刻 (anesthesia-end time), 執刀診療科名
(department), 実施申込区分 (urgency), 実施手術名０１ (display name;
`none` models a non-string cell such as NaN). -/

structure OpRecord where
  date : String
  room : String
  enter : TimeVal
  anesthEnd : TimeVal
  dept : String
  urgency : String
  surgery : Option String
deriving DecidableEq, Repr

/-! ## Bar column clipping (Claim C2)

`write_day_block`, lines 327-334: the start/end columns of an activity
bar are computed by `time_to_col`, then `start_col = max(start_col, 4)`,
`end_col = min(end_col, last_col)` with `last_col = TPL_COL_END = 93`,
and finally `if end_col <= start_col: end_col = start_col + 1`. -/

def barCols (sc ec : Int) : Int × Int :=
  let start_col := max sc 4
  let end_col := min ec TPL_COL_END
  if end_col ≤ start_col then (start_col, start_col + 1) else (start_col, end_col)

/-! ## Utilization (`calculate_utilization`, lines 180-241) -/

/-- Measurement window and standard minutes (lines 184-191): the short
9:00-13:00 window when the weekday label contains the character 土
(Saturday), the full 9:00-17:00 window otherwise.  Python tests
`"土" in weekday`; for the single-character needle this is exactly
membership of the character in the string. -/
def calc_window (weekday : String) : Int × Int × ℚ :=
  if weekday.toList.contains '土' then (9 * 60, 13 * 60, 240)
  else (9 * 60, 17 * 60, 480)

/-- Room weights (lines 197-201): the `ROOM_WEIGHT` dict with
`dict.get(room, 1.0)` semantics. -/
def ROOM_WEIGHT (room : String) : ℚ :=
  if room = "01A" then 1/2
  else if room = "01B" then 1/2
  else if room = "ｱﾝｷﾞｵ" then 0
  else 1

/-- Parsing of a time cell to minutes since midnight, as performed
inline for 入室時刻 and 麻酔終了時刻 (lines 210-230).  The `timedelta`
branch computes `int(t.total_seconds()) // 60` (floor division).
`none` models an exception, which the enclosing `try/except` turns into
skipping the record. -/
def parseMin : TimeVal → Option Int
  | .str s => (parseClock s).map (fun p => p.1 * 60 + p.2)
  | .td seconds => some (Int.fdiv seconds 60)
  | .time h m => some ((h : Int) * 60 + (m : Int))
  | .other h m => some ((h : Int) * 60 + (m : Int))
  | .bad => none

/-- Contribution of one record to `total_used` (loop body, lines
203-237): a zero-weight room is skipped before any time parsing; a
record whose time parsing raises contributes nothing (the `except`
swallows it before `total_used` is updated); otherwise the interval is
clipped to the measurement window and, when positive, weighted. -/
def recordUsed (calc_start calc_end : Int) (r : OpRecord) : ℚ :=
  let weight := ROOM_WEIGHT r.room
  if weight = 0 then 0
  else
    match parseMin r.enter, parseMin r.anesthEnd with
    | some start_min, some end_min =>
        let clipped_start := max start_min calc_start
        let clipped_end := min end_min calc_end
        if clipped_start < clipped_end then ((clipped_end - clipped_start : Int) : ℚ) * weight
        else 0
    | _, _ => 0

/-- Full `calculate_utilization` (lines 180-241).  The `rooms` parameter
is carried exactly as in the source signature, where it is never read;
`room_count` is the hardcoded constant `9.0` (line 193). -/
def calculate_utilization (day_data : List OpRecord) (rooms : List String)
    (weekday : String) : ℚ :=
  let w := calc_window weekday
  let total_available : ℚ := w.2.2 * 9
  let total_used : ℚ := (day_data.map (recordUsed w.1 w.2.1)).sum
  if 0 < total_available then total_used / total_available else 0

/-- One Saturday record occupying room 02 (weight 1.0) exactly from
09:00 to 13:00, the reduced measurement window. -/
def satExample : List OpRecord :=
  [⟨"2025/09/06", "02", TimeVal.time 9 0, TimeVal.time 13 0, "眼科", "定時", some "手術A"⟩]

/-! ## Claim C6: malformed records are skipped -/

/-- A record is well formed when both of its time cells parse. -/
def wellFormed (r : OpRecord) : Bool :=
  (parseMin r.enter).isSome && (parseMin r.anesthEnd).isSome

/-! ## Claim C4: day-block row bookkeeping

`write_day_block` returns `start_row + 1 + len(rooms)` (line 368) and
`write_gantt_for_dates` (lines 420-438) starts at row 6 and advances by
`current_row = next_row + 1` after each block. -/

/-- Return value of `write_day_block` (line 368). -/
def write_day_block_next (start_row : Nat) (rooms : List String) : Nat :=
  start_row + 1 + rooms.length

/-- Start row of the k-th day block written by `write_gantt_for_dates`:
`current_row` starts at 6 and becomes `write_day_block(...) + 1` after
each date (lines 422, 435-436). -/
def block_start_row (rooms : List String) : Nat → Nat
  | 0 => 6
  | k + 1 => write_day_block_next (block_start_row rooms k) rooms + 1

/-! ## Claim C5: department short codes

Line 336: `DEPT_SHORT.get(op["執刀診療科名"], op["執刀診療科名"][0])`.
Python evaluates the default `name[0]` before the lookup, so an empty
name raises `IndexError` (caught by the per-record handler, which skips
the record); `none` models that. -/

def deptShortOpt (dept : String) : Option String :=
  match dept.toList with
  | [] => none
  | c :: _ => some ((DEPT_SHORT.lookup dept).getD (String.mk [c]))

/-! ## Claim C7: painting preserves template borders

`get_tpl_border` (lines 244-248) and the fill loop of `write_day_block`
(lines 355-359): each painted cell receives the urgency fill and then
has its border re-set to the template border for its
(row offset, column). -/

/-- The empty `Border()` returned when no template border applies. -/
def emptyBorder : String := ""

/-- Template border lookup `get_tpl_border` (lines 244-248): the template border for
`(row_offset, col)` when a template was loaded and has an entry there,
else the default empty border. -/
def get_tpl_border (hasTpl : Bool) (tplBorders : Nat × Int → Option String)
    (row_offset : Nat) (col : Int) : String :=
  if hasTpl then
    match tplBorders (row_offset, col) with
    | some b => b
    | none => emptyBorder
  else emptyBorder

/-- State of one cell: its fill (if any) and its border. -/
structure CellState where
  fill : Option String
  border : String
deriving DecidableEq, Repr

/-- One iteration of the fill loop (lines 355-359): set the fill, then
re-apply the template border. -/
def paint_step (hasTpl : Bool) (tplBorders : Nat × Int → Option String)
    (row_offset : Nat) (fill : String) (g : Int → CellState) (c : Int) :
    Int → CellState :=
  fun x => if x = c then ⟨some fill, get_tpl_border hasTpl tplBorders row_offset c⟩ else g x

/-- The whole fill loop over a list of columns. -/
def paint_range (hasTpl : Bool) (tplBorders : Nat × Int → Option String)
    (row_offset : Nat) (fill : String) (cols : List Int) (g : Int → CellState) :
    Int → CellState :=
  cols.foldl (paint_step hasTpl tplBorders row_offset fill) g

/-! ## Day-block content model (Claim C9)

`write_day_block` (lines 256-368) is modelled as the list of cell
writes it performs, in program order.  Opaque openpyxl style objects
(fonts, alignments, border values) are represented by `String` tokens;
the date/utilization label `f"{date_str}\n{utilization:.1%}"` is
represented structurally by the pair it is rendered from (the rendering
is a fixed deterministic function of that pair). -/

/-- First grid column (`TPL_COL_START = 2`, column B, line 45). -/
def TPL_COL_START : Int := 2

/-- The style template, as captured by `load_template` and the module
globals (lines 79-145): presence flag, row heights by block offset,
borders by (row offset, column), header cell styles by column, date and
room cell fonts, the three urgency colors and the bar label font
(template-overridable, lines 459-493). -/
structure Tpl where
  hasTemplate : Bool
  rowHeights : List (Nat × ℚ)
  borders : Nat × Int → Option String
  headerCells : Int → Option String
  dateFont : Option String
  roomFont : Option String
  colorScheduled : String
  colorUrgent : String
  colorEmergency : String
  labelFont : String

/-- A value written into a cell. -/
inductive CellVal where
  | s (v : String)
  | n (v : Int)
  | utilLabel (date : String) (u : ℚ)
deriving DecidableEq, Repr

/-- One side effect of `write_day_block` on the sheet. -/
inductive Write where
  | val (row : Nat) (col : Int) (v : CellVal)
  | fill (row : Nat) (col : Int) (color : String)
  | border (row : Nat) (col : Int) (b : String)
  | font (row : Nat) (col : Int) (f : String)
  | align (row : Nat) (col : Int) (a : String)
  | merge (row1 : Nat) (col1 : Int) (row2 : Nat) (col2 : Int)
  | rowH (row : Nat) (h : ℚ)
deriving DecidableEq, Repr

/-- Translate a write down the sheet by `s` rows. -/
def shiftW (s : Nat) : Write → Write
  | .val r c v => .val (s + r) c v
  | .fill r c color => .fill (s + r) c color
  | .border r c b => .border (s + r) c b
  | .font r c f => .font (s + r) c f
  | .align r c a => .align (s + r) c a
  | .merge r1 c1 r2 c2 => .merge (s + r1) c1 (s + r2) c2
  | .rowH r h => .rowH (s + r) h

/-- Python `range(a, b + 1)` over integers. -/
def intRange (a b : Int) : List Int :=
  (List.range (b - a + 1).toNat).map (fun i => a + (i : Int))

/-- The grid columns `range(TPL_COL_START, TPL_COL_END + 1)` (B-CO). -/
def COLS_RANGE : List Int := intRange TPL_COL_START TPL_COL_END

/-- Truncation helper `shorten_surgery_name` (lines 170-177): empty or non-string input
gives `""` (the non-string case is handled by the caller, line 348);
otherwise truncate to `max_chars` characters. -/
def shorten_surgery_name (name : String) (max_chars : Nat) : String :=
  if name = "" then ""
  else if name.length > max_chars then String.mk (name.toList.take max_chars)
  else name

/-- Writes performed for one activity bar (lines 325-366).  The whole
loop body sits in `try/except`: if either time normalization or the
department subscript raises, no write happens for the record (all
writes occur after the last fallible step).  Otherwise the bar columns
are computed by `time_to_col` with offset 4 and clipped (`barCols`),
the fill color is picked from the urgency category, and the label
`"【<dept>】-<name truncated to 40>"` is written at the start column. -/
def barWrites (tpl : Tpl) (row : Nat) (tpl_row_offset : Nat) (op : OpRecord) : List Write :=
  match normalizeHM op.enter, normalizeHM op.anesthEnd, deptShortOpt op.dept with
  | some s, some e, some dshort =>
      let cols := barCols (time_to_col_hm s.1 s.2 4) (time_to_col_hm e.1 e.2 4)
      let color := if op.urgency = "緊急" then tpl.colorEmergency
                   else if op.urgency = "臨時" then tpl.colorUrgent
                   else tpl.colorScheduled
      let short_name := shorten_surgery_name (op.surgery.getD "") 40
      let bar_label := "【" ++ dshort ++ "】-" ++ short_name
      ((intRange cols.1 cols.2).flatMap (fun c =>
          [Write.fill row c color,
           Write.border row c (get_tpl_border tpl.hasTemplate tpl.borders tpl_row_offset c)])) ++
      [Write.val row cols.1 (CellVal.s bar_label),
       Write.font row cols.1 tpl.labelFont,
       Write.align row cols.1 "vcenter,nowrap"]
  | _, _, _ => []

/-- Font/alignment writes of one header cell (lines 272-275): applied
only when a template was loaded and has an entry for the column. -/
def headerStyleWrites (ht : Bool) (hc : Option String) (row : Nat) (c : Int) : List Write :=
  match ht, hc with
  | true, some st => [Write.font row c st, Write.align row c st]
  | _, _ => []

/-- Writes of the header row (lines 268-290): per-column template
header style and border, the 日付/部屋名 labels, and one merged label
`h * 100` per hour across the 6 columns of that hour. -/
def headerWrites (tpl : Tpl) (header_row : Nat) : List Write :=
  (COLS_RANGE.flatMap (fun c =>
     headerStyleWrites tpl.hasTemplate (tpl.headerCells c) header_row c ++
     [Write.border header_row c (get_tpl_border tpl.hasTemplate tpl.borders 0 c)])) ++
  [Write.val header_row 2 (CellVal.s "日付"),
   Write.val header_row 3 (CellVal.s "部屋名")] ++
  ((List.range 15).flatMap (fun k =>
     [Write.val header_row (4 + (k : Int) * 6) (CellVal.n (((k : Int) + 8) * 100)),
      Write.merge header_row (4 + (k : Int) * 6) header_row (4 + (k : Int) * 6 + 5)]))

/-- Writes of the merged date + utilization label cell, emitted on the
first room row only (lines 303-314): the label value, its font and
alignment (template or default), its border, and the vertical merge
across all room rows when there is more than one room. -/
def dateCellWrites (tpl : Tpl) (row : Nat) (tpl_row_offset : Nat)
    (date_str : String) (util : ℚ) (numRooms : Nat) : List Write :=
  [Write.val row 2 (CellVal.utilLabel date_str util)] ++
  (match tpl.hasTemplate, tpl.dateFont with
   | true, some f => [Write.font row 2 f, Write.align row 2 "tplDateAlign"]
   | _, _ => [Write.font row 2 "Font(Meiryo UI,9,bold)",
              Write.align row 2 "center,center,wrap"]) ++
  [Write.border row 2 (get_tpl_border tpl.hasTemplate tpl.borders tpl_row_offset 2)] ++
  (if 1 < numRooms then [Write.merge row 2 (row + numRooms - 1) 2] else [])

/-- Writes of the room name cell (lines 316-322): value, font
(template or default) and centering. -/
def roomNameWrites (tpl : Tpl) (row : Nat) (room : String) : List Write :=
  [Write.val row 3 (CellVal.s room)] ++
  (match tpl.hasTemplate, tpl.roomFont with
   | true, some f => [Write.font row 3 f]
   | _, _ => [Write.font row 3 "Font(Meiryo UI,7)"]) ++
  [Write.align row 3 "center,center"]

/-- Writes of one room row (lines 293-366): template borders across the
row; on the first room row the merged date + utilization label; the
room name; then the bars of the records belonging to this room. -/
def roomRowWrites (tpl : Tpl) (row : Nat) (tpl_row_offset : Nat) (date_str : String)
    (util : ℚ) (day_data : List OpRecord) (numRooms : Nat) (idx : Nat)
    (room : String) : List Write :=
  let room_data := day_data.filter (fun r => r.room == room)
  (COLS_RANGE.map (fun c =>
     Write.border row c (get_tpl_border tpl.hasTemplate tpl.borders tpl_row_offset c))) ++
  (if idx = 0 then dateCellWrites tpl row tpl_row_offset date_str util numRooms
   else []) ++
  roomNameWrites tpl row room ++
  (room_data.flatMap (barWrites tpl row tpl_row_offset))

/-- All writes of `write_day_block` (lines 256-368): row heights from
the template, the header row, then one row per room in order. -/
def write_day_block_writes (tpl : Tpl) (start_row : Nat) (date_str weekday : String)
    (day_data : List OpRecord) (rooms : List String) : List Write :=
  let util := calculate_utilization day_data rooms weekday
  (if tpl.hasTemplate then
     tpl.rowHeights.map (fun p => Write.rowH (start_row + p.1) p.2)
   else []) ++
  headerWrites tpl start_row ++
  (rooms.enum.flatMap (fun p =>
     roomRowWrites tpl (start_row + 1 + p.1) (1 + p.1) date_str util day_data
       rooms.length p.1 p.2))

/-- Weekday suffix stripping, `weekday.replace("曜日", "")` (lines 427 and 536). -/
def stripYoubi (w : String) : String := w.replace "曜日" ""

/-- The block sequencing of `write_gantt_for_dates` (lines 420-438):
starting at some row, for each date in order, look up its weekday,
filter the day's records out of the full frame, emit the day block at
the current row, and advance the cursor by the block's return value
plus one blank row.  Each entry pairs the block's start row with its
writes.  `dateDisplay` abstracts the external `pd.to_datetime`
formatting of the date label (lines 429-433); it is the same function
for every ordering. -/
def gantt_blocks (tpl : Tpl) (dateDisplay : String → String → String)
    (df : List OpRecord) (weekday_map : List (String × String)) :
    Nat → List String → List (Nat × List Write)
  | _, [] => []
  | current_row, date :: rest =>
      (current_row,
        write_day_block_writes tpl current_row
          (dateDisplay date (stripYoubi ((weekday_map.lookup date).getD "")))
          (stripYoubi ((weekday_map.lookup date).getD ""))
          (df.filter (fun r => r.date == date)) ROOM_ORDER) ::
      gantt_blocks tpl dateDisplay df weekday_map
        (write_day_block_next current_row ROOM_ORDER + 1) rest

/-- The no-template configuration: built-in defaults throughout
(`TPL_HAS_TEMPLATE = False`, default colors and fonts). -/
def defaultTpl : Tpl :=
  ⟨false, [], fun _ => none, fun _ => none, none, none,
   COLOR_SCHEDULED, COLOR_URGENT, COLOR_EMERGENCY, "Font(Meiryo UI,6)"⟩

/-! ## Theorems -/

/-! ## Claim C1 -/

/-- Claim C1 as stated is false: the source computes the column with
Python `int(total_minutes / 10)`, which truncates toward zero, not
`floor`.  For the valid time-of-day 07:55 (before the 08:00 window
start) the code yields column `4 + trunc(-5/10) = 4`, while the claimed
formula `columnOffset + floor(totalMinutes / 10)` yields `3`. -/
theorem C1_counterexample :
    time_to_col (TimeVal.time 7 55) 4 = some 4 ∧
    4 + Int.fdiv ((7 - TIME_START_HOUR) * 60 + 55) 10 = 3 := by
  constructor
  · rfl
  · decide

/-- Claim C1, amended: for every time value normalizing to
(hours, minutes), `time_to_col` equals
`columnOffset + trunc((hours - 8) * 60 + minutes) / 10)` with the
quotient truncated toward zero; whenever the time is at or after the
08:00 window start (nonnegative total minutes) this coincides with the
claimed floor formula; in particular, with column offset 4, 08:00 maps
to column 4, 08:05 maps to column 4 and 09:00 maps to column 10. -/
theorem C1_time_to_col :
    (∀ (t : TimeVal) (h m off : Int), normalizeHM t = some (h, m) →
       time_to_col t off = some (off + Int.tdiv ((h - TIME_START_HOUR) * 60 + m) 10)) ∧
    (∀ (t : TimeVal) (h m off : Int), normalizeHM t = some (h, m) →
       0 ≤ (h - TIME_START_HOUR) * 60 + m →
       time_to_col t off = some (off + Int.fdiv ((h - TIME_START_HOUR) * 60 + m) 10)) ∧
    time_to_col (TimeVal.time 8 0) 4 = some 4 ∧
    time_to_col (TimeVal.time 8 5) 4 = some 4 ∧
    time_to_col (TimeVal.time 9 0) 4 = some 10 := by
  refine ⟨?_, ?_, rfl, rfl, rfl⟩
  · intro t h m off hnorm
    simp [time_to_col, hnorm, time_to_col_hm]
  · intro t h m off hnorm hnonneg
    simp [time_to_col, hnorm, time_to_col_hm,
      Int.fdiv_eq_tdiv hnonneg (by decide : (0 : Int) ≤ 10)]

/-- Witness for `C1_time_to_col` at the concrete structured time 09:30
with column offset 4: both hypotheses are discharged concretely. -/
theorem C1_time_to_col_witness :
    time_to_col (TimeVal.time 9 30) 4 =
      some (4 + Int.fdiv ((9 - TIME_START_HOUR) * 60 + 30) 10) :=
  C1_time_to_col.2.1 (TimeVal.time 9 30) 9 30 4 rfl (by decide)

/-- Claim C2 as stated is false: `start_col` is clipped from below only
(`max(start_col, 4)`) and `end_col` from above only, so a record lying
entirely after the 08:00-22:00 window escapes the grid.  For an
activity entering at 23:00 and ending at 23:30, `time_to_col` yields
columns 94 and 97, and the painted range becomes [94, 95], whose start
column 94 lies outside the claimed interval [4, 93]. -/
theorem C2_counterexample :
    barCols (time_to_col_hm 23 0 4) (time_to_col_hm 23 30 4) = (94, 95) ∧
    ¬ ((94 : Int) ≤ 93) := by
  constructor
  · decide
  · decide

/-- Claim C2, amended: `startCol` is clipped from below to
`firstColumn = 4` (but not from above), `endCol` is clipped from above
to `lastColumn = 93` (but not from below); when after clipping
`endCol <= startCol`, `endCol` is forced to `startCol + 1`, so the
painted range always contains at least one column and never starts left
of column 4; an interval lying entirely before the time window is
painted at the left boundary as the range [4, 5], while an interval
lying entirely after the window keeps its unclipped start column and may
extend outside the grid. -/
theorem C2_bar_clipping :
    ∀ sc ec : Int,
      (barCols sc ec).1 = max sc 4 ∧
      4 ≤ (barCols sc ec).1 ∧
      (barCols sc ec).1 < (barCols sc ec).2 ∧
      ((barCols sc ec).2 = min ec TPL_COL_END ∨
        (barCols sc ec).2 = (barCols sc ec).1 + 1) ∧
      (sc ≤ 4 → ec ≤ 4 → barCols sc ec = (4, 5)) := by
  intro sc ec
  simp only [barCols, TPL_COL_END]
  refine ⟨?_, ?_, ?_, ?_, ?_⟩
  · split <;> rfl
  · split <;> simp
  · split
    · simp
    · simp
      omega
  · split
    · right; rfl
    · left; rfl
  · intro hsc hec
    have h1 : max sc 4 = 4 := by omega
    have h2 : min ec (93 : Int) = ec := by omega
    simp only [h1, h2]
    split
    · rfl
    · omega

/-- Witness for `C2_bar_clipping` at the concrete out-of-window pair
(2, 3): the hypotheses `sc ≤ 4` and `ec ≤ 4` are discharged concretely
and the painted range is the left-boundary pair (4, 5). -/
theorem C2_bar_clipping_witness : barCols 2 3 = (4, 5) :=
  (C2_bar_clipping 2 3).2.2.2.2 (by decide) (by decide)

/-- Claim C3 as stated is false in its numeric example: for a Saturday
with one record in a weight-1.0 room occupying exactly 09:00-13:00 the
code returns `240 / (240 * 9) = 1/9 ≈ 0.1111`, which is well above the
claimed `≈ 0.0494` (the claim's own formula `240/(240×9)` does not
evaluate to 0.0494). -/
theorem C3_counterexample :
    calculate_utilization satExample ROOM_ORDER "土" = 1/9 ∧
    (6/100 : ℚ) < 1/9 := by
  constructor
  · simp +decide only [calculate_utilization, calc_window, satExample, recordUsed,
      ROOM_WEIGHT, parseMin, List.map, List.sum_cons, List.sum_nil]
    norm_num
  · norm_num

/-- Claim C3, amended: the measurement window is 09:00-13:00 (240
minutes) when the weekday label contains the short-day marker 土
(Saturday) and 09:00-17:00 (480 minutes) otherwise, chosen from the
label alone (a configuration constant, not the data); for a Saturday
with one record in a weight-1.0 room occupying exactly 09:00-13:00,
utilization = 240/(240×9) = 1/9 ≈ 0.1111. -/
theorem C3_window :
    (∀ w : String, w.toList.contains '土' = true → calc_window w = (540, 780, 240)) ∧
    (∀ w : String, w.toList.contains '土' = false → calc_window w = (540, 1020, 480)) ∧
    calculate_utilization satExample ROOM_ORDER "土" = 240 / (240 * 9) := by
  refine ⟨?_, ?_, ?_⟩
  · intro w hw
    have hw' : '土' ∈ w.data := by simpa using hw
    simp [calc_window, hw']
  · intro w hw
    have hw' : '土' ∉ w.data := by simpa using hw
    simp [calc_window, hw']
  · simp +decide only [calculate_utilization, calc_window, satExample, recordUsed,
      ROOM_WEIGHT, parseMin, List.map, List.sum_cons, List.sum_nil]
    norm_num

/-- Witness for `C3_window`: the window hypotheses discharged at the
concrete weekday labels 土 and 月. -/
theorem C3_window_witness :
    calc_window "土" = (540, 780, 240) ∧ calc_window "月" = (540, 1020, 480) :=
  ⟨C3_window.1 "土" (by decide), C3_window.2.1 "月" (by decide)⟩

/-- A record that is not well formed contributes nothing to
`total_used`: the exception raised while parsing is swallowed before the
accumulator is updated. -/
theorem recordUsed_of_malformed (cs ce : Int) (r : OpRecord)
    (h : wellFormed r = false) : recordUsed cs ce r = 0 := by
  simp only [wellFormed, Bool.and_eq_false_iff] at h
  simp only [recordUsed]
  split
  · rfl
  · rcases h with h | h <;>
      rcases he : parseMin r.enter with _ | v <;>
      rcases ha : parseMin r.anesthEnd with _ | v' <;>
      simp [he, ha] at h ⊢

/-- Sums of per-record contributions ignore records filtered out by any
predicate that only drops zero-contribution records. -/
theorem sum_recordUsed_filter (cs ce : Int) (p : OpRecord → Bool)
    (hp : ∀ r, p r = false → recordUsed cs ce r = 0) :
    ∀ day_data : List OpRecord,
      (day_data.map (recordUsed cs ce)).sum =
        ((day_data.filter p).map (recordUsed cs ce)).sum := by
  intro day_data
  induction day_data with
  | nil => rfl
  | cons r rest ih =>
      rcases hr : p r with _ | _
      · simpa [List.filter_cons, hr, hp r hr] using ih
      · simpa [List.filter_cons, hr] using ih

/-- Claim C6: the utilization computation never fails and is oblivious
to malformed records: for every day input, weekday label and room list,
the result equals the utilization of the subset of well-formed records
(records whose times fail to parse are skipped, never surfaced). -/
theorem C6_malformed_skipped :
    ∀ (day_data : List OpRecord) (rooms : List String) (weekday : String),
      calculate_utilization day_data rooms weekday =
        calculate_utilization (day_data.filter wellFormed) rooms weekday := by
  intro day_data rooms weekday
  simp only [calculate_utilization]
  rw [sum_recordUsed_filter _ _ wellFormed (recordUsed_of_malformed _ _) day_data]

/-! ## Claim C8: zero-weight rooms are invisible -/

/-- A record in a zero-weight room contributes nothing, whatever its
time cells hold (the weight test precedes all parsing). -/
theorem recordUsed_of_zero_weight (cs ce : Int) (r : OpRecord)
    (h : ROOM_WEIGHT r.room = 0) : recordUsed cs ce r = 0 := by
  simp [recordUsed, h]

/-- Claim C8: the utilization result is insensitive to records in
zero-weight rooms: dropping all of them changes nothing, and prepending
a record for the weight-0 room ｱﾝｷﾞｵ changes nothing whatever its time
cells contain (even unparseable ones) — such records are skipped before
any time parsing is attempted. -/
theorem C8_zero_weight :
    (∀ (day_data : List OpRecord) (rooms : List String) (weekday : String),
       calculate_utilization day_data rooms weekday =
         calculate_utilization
           (day_data.filter (fun r => decide (ROOM_WEIGHT r.room ≠ 0))) rooms weekday) ∧
    (∀ (day_data : List OpRecord) (rooms : List String) (weekday : String)
       (d dept urg : String) (sur : Option String) (t1 t2 : TimeVal),
       calculate_utilization (⟨d, "ｱﾝｷﾞｵ", t1, t2, dept, urg, sur⟩ :: day_data) rooms weekday =
         calculate_utilization day_data rooms weekday) := by
  constructor
  · intro day_data rooms weekday
    simp only [calculate_utilization]
    rw [sum_recordUsed_filter _ _ _ ?_ day_data]
    intro r hr
    apply recordUsed_of_zero_weight
    simpa using hr
  · intro day_data rooms weekday d dept urg sur t1 t2
    have h0 : ∀ cs ce : Int,
        recordUsed cs ce ⟨d, "ｱﾝｷﾞｵ", t1, t2, dept, urg, sur⟩ = 0 := by
      intro cs ce
      apply recordUsed_of_zero_weight
      simp +decide [ROOM_WEIGHT]
    simp only [calculate_utilization, List.map, List.sum_cons, h0, zero_add]

/-- Closed form for the block start rows: stride `|rooms| + 2`. -/
theorem block_start_row_closed (rooms : List String) (k : Nat) :
    block_start_row rooms k = 6 + k * (rooms.length + 2) := by
  induction k with
  | zero => simp [block_start_row]
  | succ k ih =>
      simp only [block_start_row, write_day_block_next, ih, Nat.succ_mul]
      omega

/-- Blocks written earlier end strictly before later blocks begin. -/
theorem block_start_row_lt (rooms : List String) (i j : Nat) (h : i < j) :
    block_start_row rooms i + rooms.length < block_start_row rooms j := by
  have h1 : (i + 1) * (rooms.length + 2) ≤ j * (rooms.length + 2) :=
    Nat.mul_le_mul_right _ h
  rw [block_start_row_closed, block_start_row_closed]
  rw [Nat.succ_mul] at h1
  omega

/-- Claim C4: `write_day_block` returns `startRow + 1 + |roomOrder|`;
each block occupies the `1 + |rooms|` rows `[start, start + |rooms|]`
(header plus one row per room); the next block starts exactly two rows
past the last occupied row, i.e. the gap is exactly one blank row; and
the occupied row ranges of any two distinct blocks in one ordering are
disjoint. -/
theorem C4_day_block_rows :
    (∀ (start_row : Nat) (rooms : List String),
        write_day_block_next start_row rooms = start_row + 1 + rooms.length) ∧
    (∀ (rooms : List String) (k : Nat),
        block_start_row rooms (k + 1) = (block_start_row rooms k + rooms.length) + 2) ∧
    (∀ (rooms : List String) (i j : Nat), i ≠ j →
        Disjoint
          (Finset.Icc (block_start_row rooms i) (block_start_row rooms i + rooms.length))
          (Finset.Icc (block_start_row rooms j) (block_start_row rooms j + rooms.length))) := by
  refine ⟨fun _ _ => rfl, ?_, ?_⟩
  · intro rooms k
    simp only [block_start_row, write_day_block_next]
    omega
  · intro rooms i j hij
    apply Finset.disjoint_left.mpr
    intro a hai haj
    simp only [Finset.mem_Icc] at hai haj
    rcases Nat.lt_or_ge i j with h | h
    · have := block_start_row_lt rooms i j h
      omega
    · have hj : j < i := Nat.lt_of_le_of_ne h (fun e => hij e.symm)
      have := block_start_row_lt rooms j i hj
      omega

/-- Witness for `C4_day_block_rows`: the first two day blocks over the
configured `ROOM_ORDER` occupy disjoint row ranges. -/
theorem C4_day_block_rows_witness :
    Disjoint
      (Finset.Icc (block_start_row ROOM_ORDER 0) (block_start_row ROOM_ORDER 0 + ROOM_ORDER.length))
      (Finset.Icc (block_start_row ROOM_ORDER 1) (block_start_row ROOM_ORDER 1 + ROOM_ORDER.length)) :=
  C4_day_block_rows.2.2 ROOM_ORDER 0 1 (by decide)

/-- Claim C5 as stated is false at an activity record whose department
name is the empty string: there is no first character to fall back to —
the code raises `IndexError` and the whole record is skipped, so a short
code is not produced at all ("never a failure" fails). -/
theorem C5_counterexample : deptShortOpt "" = none := rfl

/-- Claim C5, amended: for every activity record with a NON-EMPTY
department name, the short code is the exact-match value of
`DEPT_SHORT` when the full name is a key, and otherwise the first
character of the full name, as a silent default; e.g. 総合外科 maps to
総 and the unmapped 外来 maps to 外.  For an empty department name the
subscript raises and the record is skipped by the per-record handler. -/
theorem C5_dept_short :
    (∀ p ∈ DEPT_SHORT, deptShortOpt p.1 = some p.2) ∧
    (∀ (dept : String) (c : Char) (cs : List Char), dept.toList = c :: cs →
        DEPT_SHORT.lookup dept = none → deptShortOpt dept = some (String.mk [c])) ∧
    deptShortOpt "総合外科" = some "総" ∧
    deptShortOpt "外来" = some "外" := by
  refine ⟨by decide, ?_, by decide, by decide⟩
  intro dept c cs h hlook
  have h' : dept.data = c :: cs := h
  simp [deptShortOpt, h', hlook]

/-- Witness for `C5_dept_short`: the unmapped name 外来 falls back to
its first character. -/
theorem C5_dept_short_witness : deptShortOpt "外来" = some (String.mk ['外']) :=
  C5_dept_short.2.1 "外来" '外' ['来'] (by decide) (by decide)

/-- Unfolding of the fill loop over one more column. -/
theorem paint_range_cons (hasTpl : Bool) (tplBorders : Nat × Int → Option String)
    (row_offset : Nat) (fill : String) (x : Int) (xs : List Int)
    (g : Int → CellState) :
    paint_range hasTpl tplBorders row_offset fill (x :: xs) g =
      paint_range hasTpl tplBorders row_offset fill xs
        (paint_step hasTpl tplBorders row_offset fill g x) := rfl

/-- Cells outside the painted columns are untouched. -/
theorem paint_range_not_mem (hasTpl : Bool) (tplBorders : Nat × Int → Option String)
    (row_offset : Nat) (fill : String) (cols : List Int) (c : Int)
    (h : c ∉ cols) :
    ∀ g : Int → CellState,
      paint_range hasTpl tplBorders row_offset fill cols g c = g c := by
  induction cols with
  | nil => intro g; rfl
  | cons x xs ih =>
      intro g
      have hx : c ≠ x := fun e => h (e ▸ List.mem_cons_self x xs)
      have hxs : c ∉ xs := fun e => h (List.mem_cons_of_mem x e)
      simp only [paint_range, List.foldl_cons] at *
      rw [ih hxs]
      simp [paint_step, hx]

/-- Claim C7: after the bar-painting fill is applied, every painted
cell carries the urgency fill and its border equals the template border
for its (row offset, column) position (the default empty border when no
template is present): painting re-applies the template border and never
clears it; cells outside the painted range are untouched. -/
theorem C7_border_preserved :
    ∀ (hasTpl : Bool) (tplBorders : Nat × Int → Option String)
      (row_offset : Nat) (fill : String) (cols : List Int)
      (g : Int → CellState) (c : Int),
      (c ∈ cols →
        paint_range hasTpl tplBorders row_offset fill cols g c =
          ⟨some fill, get_tpl_border hasTpl tplBorders row_offset c⟩) ∧
      (c ∉ cols →
        paint_range hasTpl tplBorders row_offset fill cols g c = g c) := by
  intro hasTpl tplBorders row_offset fill cols
  induction cols with
  | nil =>
      intro g c
      exact ⟨fun h => absurd h (List.not_mem_nil c), fun _ => rfl⟩
  | cons x xs ih =>
      intro g c
      constructor
      · intro hmem
        rw [paint_range_cons]
        by_cases hxs : c ∈ xs
        · exact (ih (paint_step hasTpl tplBorders row_offset fill g x) c).1 hxs
        · have hx : c = x := by
            rcases List.mem_cons.mp hmem with h | h
            · exact h
            · exact absurd h hxs
          rw [paint_range_not_mem hasTpl tplBorders row_offset fill xs c hxs]
          simp [paint_step, hx]
      · intro hmem
        exact paint_range_not_mem hasTpl tplBorders row_offset fill (x :: xs) c hmem g

/-- Witness for `C7_border_preserved`: painting columns 4-6 of a row
with the emergency color, under a template mapping every position to
border "thin", leaves cell 5 with the fill and the template border. -/
theorem C7_border_preserved_witness :
    paint_range true (fun _ => some "thin") 3 "FF8CCC" [4, 5, 6]
      (fun _ => ⟨none, emptyBorder⟩) 5 = ⟨some "FF8CCC", "thin"⟩ := by
  have h := (C7_border_preserved true (fun _ => some "thin") 3 "FF8CCC" [4, 5, 6]
    (fun _ => ⟨none, emptyBorder⟩) 5).1 (by decide)
  simpa [get_tpl_border] using h

/-- Shifting the writes of one bar down the sheet moves its row. -/
theorem barWrites_shift (tpl : Tpl) (s row tpl_row_offset : Nat) (op : OpRecord) :
    (barWrites tpl row tpl_row_offset op).map (shiftW s) =
      barWrites tpl (s + row) tpl_row_offset op := by
  rcases hs : normalizeHM op.enter with _ | p
  · simp [barWrites, hs]
  rcases he : normalizeHM op.anesthEnd with _ | q
  · simp [barWrites, hs, he]
  rcases hd : deptShortOpt op.dept with _ | d
  · simp [barWrites, hs, he, hd]
  simp only [barWrites, hs, he, hd, List.map_append, List.map_flatMap,
    List.map_cons, List.map_nil, shiftW]

/-- Shifting the header-cell style writes of one column moves their row. -/
theorem headerStyleWrites_shift (s r : Nat) (ht : Bool) (hc : Option String) (c : Int) :
    (headerStyleWrites ht hc r c).map (shiftW s) = headerStyleWrites ht hc (s + r) c := by
  rcases ht with _ | _ <;> rcases hc with _ | st <;> simp [headerStyleWrites, shiftW]

/-- Shifting the header row's writes moves their rows. -/
theorem headerWrites_shift (tpl : Tpl) (s r : Nat) :
    (headerWrites tpl r).map (shiftW s) = headerWrites tpl (s + r) := by
  simp only [headerWrites, List.map_append, List.map_flatMap, List.map_cons,
    List.map_nil, shiftW, headerStyleWrites_shift]

/-- Shifting the date/utilization cell's writes moves their rows. -/
theorem dateCellWrites_shift (tpl : Tpl) (s row tpl_row_offset : Nat)
    (date_str : String) (util : ℚ) (numRooms : Nat) :
    (dateCellWrites tpl row tpl_row_offset date_str util numRooms).map (shiftW s) =
      dateCellWrites tpl (s + row) tpl_row_offset date_str util numRooms := by
  obtain ⟨ht, rh, bd, hc, df, rf, c1, c2, c3, lf⟩ := tpl
  by_cases hn : 1 < numRooms <;> cases ht <;> rcases df with _ | f <;>
    simp [dateCellWrites, shiftW, hn] <;> omega

/-- Shifting the room name cell's writes moves their rows. -/
theorem roomNameWrites_shift (tpl : Tpl) (s row : Nat) (room : String) :
    (roomNameWrites tpl row room).map (shiftW s) = roomNameWrites tpl (s + row) room := by
  obtain ⟨ht, rh, bd, hc, df, rf, c1, c2, c3, lf⟩ := tpl
  cases ht <;> rcases rf with _ | f <;> simp [roomNameWrites, shiftW]

/-- Shifting one room row's writes moves their rows. -/
theorem roomRowWrites_shift (tpl : Tpl) (s row tpl_row_offset : Nat)
    (date_str : String) (util : ℚ) (day_data : List OpRecord)
    (numRooms idx : Nat) (room : String) :
    (roomRowWrites tpl row tpl_row_offset date_str util day_data numRooms idx room).map
        (shiftW s) =
      roomRowWrites tpl (s + row) tpl_row_offset date_str util day_data numRooms idx room := by
  simp only [roomRowWrites, List.map_append, apply_ite, List.map_nil, List.map_map,
    List.map_flatMap, Function.comp_def, shiftW, barWrites_shift,
    dateCellWrites_shift, roomNameWrites_shift]

/-- Shifting a whole day block's writes moves their rows: the block's
content is a function of its inputs only, translated by its start
row. -/
theorem write_day_block_writes_shift (tpl : Tpl) (s r : Nat)
    (date_str weekday : String) (day_data : List OpRecord) (rooms : List String) :
    (write_day_block_writes tpl r date_str weekday day_data rooms).map (shiftW s) =
      write_day_block_writes tpl (s + r) date_str weekday day_data rooms := by
  simp only [write_day_block_writes, List.map_append, apply_ite, List.map_nil,
    List.map_map, List.map_flatMap, Function.comp_def, shiftW,
    headerWrites_shift, roomRowWrites_shift, Nat.add_assoc]

/-- Closed form of the i-th block of a composed sheet: it starts at
`cur + i * (|ROOM_ORDER| + 2)` and its writes are those of
`write_day_block` for the i-th date, which depend only on that date
(via the weekday map and the date filter), not on the ordering. -/
theorem gantt_blocks_getElem (tpl : Tpl) (dateDisplay : String → String → String)
    (df : List OpRecord) (wmap : List (String × String)) :
    ∀ (dates : List String) (cur i : Nat) (d : String), dates[i]? = some d →
      (gantt_blocks tpl dateDisplay df wmap cur dates)[i]? =
        some (cur + i * (ROOM_ORDER.length + 2),
          write_day_block_writes tpl (cur + i * (ROOM_ORDER.length + 2))
            (dateDisplay d (stripYoubi ((wmap.lookup d).getD "")))
            (stripYoubi ((wmap.lookup d).getD ""))
            (df.filter (fun r => r.date == d)) ROOM_ORDER) := by
  intro dates
  induction dates with
  | nil => intro cur i d h; simp at h
  | cons x rest ih =>
      intro cur i d h
      cases i with
      | zero =>
          simp only [List.getElem?_cons_zero, Option.some.injEq] at h
          subst h
          simp [gantt_blocks]
      | succ i =>
          simp only [List.getElem?_cons_succ] at h
          have key := ih (write_day_block_next cur ROOM_ORDER + 1) i d h
          have harith : write_day_block_next cur ROOM_ORDER + 1 + i * (ROOM_ORDER.length + 2)
              = cur + (i + 1) * (ROOM_ORDER.length + 2) := by
            simp only [write_day_block_next, Nat.succ_mul]
            omega
          simp only [gantt_blocks, List.getElem?_cons_succ]
          rw [key, harith]

/-! ## Claim C10: the room-list argument is dead -/

/-- Claim C10: `calculate_utilization` never reads its `rooms`
argument — the denominator is the hardcoded 9.0 rooms times the window
minutes — so any two room lists give identical results. -/
theorem C10_rooms_ignored :
    ∀ (day_data : List OpRecord) (weekday : String) (r1 r2 : List String),
      calculate_utilization day_data r1 weekday =
        calculate_utilization day_data r2 weekday := by
  intro day_data weekday r1 r2
  rfl

/-- Claim C9: whenever the same date appears in two date orderings
(e.g. calendar order and weekday-then-week-of-month order), the two
sheets contain day blocks for it with identical content — the same
write list (labels, utilization value, bar positions and colors) up to
translation by the block's start row; only the starting row offset
differs. -/
theorem C9_reorder_invariance (tpl : Tpl) (dateDisplay : String → String → String)
    (df : List OpRecord) (wmap : List (String × String)) (c1 c2 : Nat)
    (l1 l2 : List String) (i j : Nat) (d : String)
    (h1 : l1[i]? = some d) (h2 : l2[j]? = some d) :
    ∃ (base : List Write) (s1 s2 : Nat),
      (gantt_blocks tpl dateDisplay df wmap c1 l1)[i]? = some (s1, base.map (shiftW s1)) ∧
      (gantt_blocks tpl dateDisplay df wmap c2 l2)[j]? = some (s2, base.map (shiftW s2)) := by
  refine ⟨write_day_block_writes tpl 0
      (dateDisplay d (stripYoubi ((wmap.lookup d).getD "")))
      (stripYoubi ((wmap.lookup d).getD ""))
      (df.filter (fun r => r.date == d)) ROOM_ORDER,
    c1 + i * (ROOM_ORDER.length + 2), c2 + j * (ROOM_ORDER.length + 2), ?_, ?_⟩
  · rw [gantt_blocks_getElem tpl dateDisplay df wmap l1 c1 i d h1,
      write_day_block_writes_shift]
    exact rfl
  · rw [gantt_blocks_getElem tpl dateDisplay df wmap l2 c2 j d h2,
      write_day_block_writes_shift]
    exact rfl

/-- Witness for `C9_reorder_invariance`: the date "0901" appearing at
position 0 of one ordering and position 1 of another yields identical
block content up to row shift. -/
theorem C9_reorder_invariance_witness :
    ∃ (base : List Write) (s1 s2 : Nat),
      (gantt_blocks defaultTpl (fun d _ => d) [] [] 6 ["0901"])[0]? =
        some (s1, base.map (shiftW s1)) ∧
      (gantt_blocks defaultTpl (fun d _ => d) [] [] 6 ["0902", "0901"])[1]? =
        some (s2, base.map (shiftW s2)) :=
  C9_reorder_invariance defaultTpl (fun d _ => d) [] [] 6 6
    ["0901"] ["0902", "0901"] 0 1 "0901" rfl rfl

end Gantt
